import Mathlib

/-!
Shallow embedding of the serde-lua-table serialization engine
(`src/ser/mod.rs`, `src/ser/compound.rs`, `src/ser/map_key_serializer.rs`,
`src/ser/error.rs`).

The `Serializer` drives a `Formatter` by calling one method per token; the
`Formatter` trait's default method bodies (the byte rendering) live in the
`format` module, of which only `compact.rs` is available, so the embedding
records the trace of formatter calls as a list of `Token`s.  Every claim
about separator placement, state transitions, delimiter pairing and key
restriction is a statement about this trace and about the `Compound` state
machine, exactly as the Rust code computes them.  The byte sink is
append-only, so each embedded operation returns the tokens it emits
(callers concatenate), together with the error, if any, that interrupted
it; tokens emitted before the error are kept, mirroring the partially
written sink.
-/

/-- One call to a `Formatter` method: structural tokens and scalar literals.
Each constructor mirrors one method of the `Formatter` trait that
`Serializer`/`Compound` invoke.  Float payloads are opaque identifiers:
no claim inspects float rendering. -/
inductive Token where
  | writeBool (b : Bool)
  | writeI8 (n : Int)
  | writeI16 (n : Int)
  | writeI32 (n : Int)
  | writeI64 (n : Int)
  | writeU8 (n : Nat)
  | writeU16 (n : Nat)
  | writeU32 (n : Nat)
  | writeU64 (n : Nat)
  | writeF32 (x : Nat)
  | writeF64 (x : Nat)
  | writeNull
  | beginString
  | stringContents (s : String)
  | endString
  | beginArray
  | endArray
  | beginArrayValue (first : Bool)
  | endArrayValue
  | beginObject
  | endObject
  | beginObjectKey (first : Bool)
  | endObjectKey
  | beginObjectValue
  | endObjectValue
  deriving DecidableEq, Repr

/-- `enum State` from `src/ser/compound.rs`: Empty / First / Rest. -/
inductive State where
  | empty
  | first
  | rest
  deriving DecidableEq, Repr

/-- `SerError` from `src/ser/error.rs`.  `ioErr` stands for `Io(io::Error)`;
the in-memory sink never fails, so the embedding never produces it. -/
inductive SerError where
  | ioErr
  | custom (msg : String)
  | keyMustBeStringOrNumber
  deriving DecidableEq, Repr

/-- The shape a `Serialize` implementation presents to the `Serializer`:
one constructor per method of the serde `Serializer` trait.  `vSeq`/`vMap`
carry the length hint the implementation passes (`None` = unknown length),
independently of the element list, so both the known-length and the
unknown-length drivers are representable. -/
inductive Value where
  | vBool (b : Bool)
  | vI8 (n : Int)
  | vI16 (n : Int)
  | vI32 (n : Int)
  | vI64 (n : Int)
  | vU8 (n : Nat)
  | vU16 (n : Nat)
  | vU32 (n : Nat)
  | vU64 (n : Nat)
  | vF32 (x : Nat)
  | vF64 (x : Nat)
  | vChar (c : Char)
  | vStr (s : String)
  | vBytes (bs : List Nat)
  | vNone
  | vSome (v : Value)
  | vUnit
  | vUnitStruct (name : String)
  | vUnitVariant (name : String) (variant : String)
  | vNewtypeStruct (name : String) (v : Value)
  | vNewtypeVariant (name : String) (variant : String) (v : Value)
  | vSeq (len : Option Nat) (elems : List Value)
  | vTuple (elems : List Value)
  | vTupleStruct (name : String) (elems : List Value)
  | vTupleVariant (name : String) (variant : String) (elems : List Value)
  | vMap (len : Option Nat) (entries : List (Value × Value))
  | vStruct (name : String) (fields : List (String × Value))
  | vStructVariant (name : String) (variant : String) (fields : List (String × Value))

/-- `self.state == State::First` as the Rust code computes the `first`
flag passed to `begin_array_value` / `begin_object_key`. -/
def isFirst : State → Bool
  | State.first => true
  | State.empty => false
  | State.rest => false

/-- `format_escaped_str`: `begin_string`, escaped contents, `end_string`
(`src/ser/mod.rs`). -/
def strTokens (s : String) : List Token :=
  [Token.beginString, Token.stringContents s, Token.endString]

/-- The `Compound` state `serialize_seq`/`serialize_map` hand back
(`src/ser/mod.rs`): `Empty` when the length hint is `Some(0)`, else
`First`. -/
def initialState (len : Option Nat) : State :=
  if len = some 0 then State.empty else State.first

/-- Tokens emitted by `serialize_seq` before any element: `begin_array`,
plus an immediate `end_array` on the known-zero fast path. -/
def seqOpen (len : Option Nat) : List Token :=
  Token.beginArray :: (if len = some 0 then [Token.endArray] else [])

/-- Tokens emitted by `SerializeSeq::end`: `end_array` unless the compound
is `Empty` (`if self.not_empty()` in `src/ser/compound.rs`). -/
def seqEnd (st : State) : List Token :=
  if st = State.empty then [] else [Token.endArray]

/-- Tokens emitted by `serialize_map` before any entry: `begin_object`,
plus an immediate `end_object` on the known-zero fast path. -/
def mapOpen (len : Option Nat) : List Token :=
  Token.beginObject :: (if len = some 0 then [Token.endObject] else [])

/-- Tokens emitted by `SerializeMap::end`: `end_object` unless the compound
is `Empty`. -/
def mapEnd (st : State) : List Token :=
  if st = State.empty then [] else [Token.endObject]

/-- The common header of `serialize_newtype_variant` /
`serialize_tuple_variant` / `serialize_struct_variant`
(`src/ser/mod.rs`): open the enclosing object, write the variant name as
the sole key (with the `first` flag set), and open its value slot. -/
def variantHeader (variant : String) : List Token :=
  Token.beginObject :: Token.beginObjectKey true ::
    (strTokens variant ++ [Token.endObjectKey, Token.beginObjectValue])

/-- `MapKeySerializer` (`src/ser/map_key_serializer.rs`): the restricted
serializer a mapping key is dispatched through.  Accepted kinds delegate
to the main serializer's token writes; every other kind returns
`KeyMustBeStringOrNumber` after writing nothing. -/
def serKey : Value → List Token × Option SerError
  | Value.vI8 n => ([Token.writeI8 n], none)
  | Value.vI16 n => ([Token.writeI16 n], none)
  | Value.vI32 n => ([Token.writeI32 n], none)
  | Value.vI64 n => ([Token.writeI64 n], none)
  | Value.vU8 n => ([Token.writeU8 n], none)
  | Value.vU16 n => ([Token.writeU16 n], none)
  | Value.vU32 n => ([Token.writeU32 n], none)
  | Value.vU64 n => ([Token.writeU64 n], none)
  | Value.vChar c => (strTokens (String.singleton c), none)
  | Value.vStr s => (strTokens s, none)
  | Value.vUnitVariant _ variant => (strTokens variant, none)
  | Value.vNewtypeStruct _ v => serKey v
  | Value.vBool _ => ([], some SerError.keyMustBeStringOrNumber)
  | Value.vF32 _ => ([], some SerError.keyMustBeStringOrNumber)
  | Value.vF64 _ => ([], some SerError.keyMustBeStringOrNumber)
  | Value.vBytes _ => ([], some SerError.keyMustBeStringOrNumber)
  | Value.vNone => ([], some SerError.keyMustBeStringOrNumber)
  | Value.vSome _ => ([], some SerError.keyMustBeStringOrNumber)
  | Value.vUnit => ([], some SerError.keyMustBeStringOrNumber)
  | Value.vUnitStruct _ => ([], some SerError.keyMustBeStringOrNumber)
  | Value.vNewtypeVariant _ _ _ => ([], some SerError.keyMustBeStringOrNumber)
  | Value.vSeq _ _ => ([], some SerError.keyMustBeStringOrNumber)
  | Value.vTuple _ => ([], some SerError.keyMustBeStringOrNumber)
  | Value.vTupleStruct _ _ => ([], some SerError.keyMustBeStringOrNumber)
  | Value.vTupleVariant _ _ _ => ([], some SerError.keyMustBeStringOrNumber)
  | Value.vMap _ _ => ([], some SerError.keyMustBeStringOrNumber)
  | Value.vStruct _ _ => ([], some SerError.keyMustBeStringOrNumber)
  | Value.vStructVariant _ _ _ => ([], some SerError.keyMustBeStringOrNumber)

/-- `SerializeMap::serialize_key` (`src/ser/compound.rs`): emit
`begin_object_key` with the `first` flag, set the state to `Rest`, run the
key through `MapKeySerializer`, and close with `end_object_key` on
success. -/
def serializeKeyStep (st : State) (k : Value) : List Token × Option SerError × State :=
  match serKey k with
  | (kts, some e) => (Token.beginObjectKey (isFirst st) :: kts, some e, State.rest)
  | (kts, none) =>
      (Token.beginObjectKey (isFirst st) :: (kts ++ [Token.endObjectKey]), none, State.rest)

/-- The element loop of `serialize_bytes` (`src/ser/mod.rs`): each byte is
fed to `SerializeSeq::serialize_element`, which serializes it as a `u8`
scalar between `begin_array_value`/`end_array_value`. -/
def serBytesElems : List Nat → State → List Token × Option SerError × State
  | [], st => ([], none, st)
  | b :: bs, st =>
      match serBytesElems bs State.rest with
      | (ts2, e2, st2) =>
          ((Token.beginArrayValue (isFirst st) ::
              ([Token.writeU8 b] ++ [Token.endArrayValue])) ++ ts2, e2, st2)

mutual

/-- The main `Serializer` dispatch (`src/ser/mod.rs`): the trace of
formatter calls produced by serializing one value, with the error, if any,
that interrupted it (tokens already emitted are kept). -/
def serValue : Value → List Token × Option SerError
  | Value.vBool b => ([Token.writeBool b], none)
  | Value.vI8 n => ([Token.writeI8 n], none)
  | Value.vI16 n => ([Token.writeI16 n], none)
  | Value.vI32 n => ([Token.writeI32 n], none)
  | Value.vI64 n => ([Token.writeI64 n], none)
  | Value.vU8 n => ([Token.writeU8 n], none)
  | Value.vU16 n => ([Token.writeU16 n], none)
  | Value.vU32 n => ([Token.writeU32 n], none)
  | Value.vU64 n => ([Token.writeU64 n], none)
  | Value.vF32 x => ([Token.writeF32 x], none)
  | Value.vF64 x => ([Token.writeF64 x], none)
  | Value.vChar c => (strTokens (String.singleton c), none)
  | Value.vStr s => (strTokens s, none)
  | Value.vBytes bs =>
      match serBytesElems bs (initialState (some bs.length)) with
      | (ts, some e, _) => (seqOpen (some bs.length) ++ ts, some e)
      | (ts, none, st) => (seqOpen (some bs.length) ++ ts ++ seqEnd st, none)
  | Value.vNone => ([Token.writeNull], none)
  | Value.vSome v => serValue v
  | Value.vUnit => ([Token.writeNull], none)
  | Value.vUnitStruct _ => ([Token.writeNull], none)
  | Value.vUnitVariant _ variant => (strTokens variant, none)
  | Value.vNewtypeStruct _ v => serValue v
  | Value.vNewtypeVariant _ variant v =>
      match serValue v with
      | (vts, some e) => (variantHeader variant ++ vts, some e)
      | (vts, none) =>
          (variantHeader variant ++ vts ++ [Token.endObjectValue, Token.endObject], none)
  | Value.vSeq len elems =>
      match serSeqElems elems (initialState len) with
      | (ts, some e, _) => (seqOpen len ++ ts, some e)
      | (ts, none, st) => (seqOpen len ++ ts ++ seqEnd st, none)
  | Value.vTuple elems =>
      match serSeqElems elems (initialState (some elems.length)) with
      | (ts, some e, _) => (seqOpen (some elems.length) ++ ts, some e)
      | (ts, none, st) => (seqOpen (some elems.length) ++ ts ++ seqEnd st, none)
  | Value.vTupleStruct _ elems =>
      match serSeqElems elems (initialState (some elems.length)) with
      | (ts, some e, _) => (seqOpen (some elems.length) ++ ts, some e)
      | (ts, none, st) => (seqOpen (some elems.length) ++ ts ++ seqEnd st, none)
  | Value.vTupleVariant _ variant elems =>
      match serSeqElems elems (initialState (some elems.length)) with
      | (ts, some e, _) => (variantHeader variant ++ seqOpen (some elems.length) ++ ts, some e)
      | (ts, none, st) =>
          (variantHeader variant ++ seqOpen (some elems.length) ++ ts ++ seqEnd st ++
            [Token.endObjectValue, Token.endObject], none)
  | Value.vMap len entries =>
      match serMapEntries entries (initialState len) with
      | (ts, some e, _) => (mapOpen len ++ ts, some e)
      | (ts, none, st) => (mapOpen len ++ ts ++ mapEnd st, none)
  | Value.vStruct _ fields =>
      match serStructFields fields (initialState (some fields.length)) with
      | (ts, some e, _) => (mapOpen (some fields.length) ++ ts, some e)
      | (ts, none, st) => (mapOpen (some fields.length) ++ ts ++ mapEnd st, none)
  | Value.vStructVariant _ variant fields =>
      match serStructFields fields (initialState (some fields.length)) with
      | (ts, some e, _) => (variantHeader variant ++ mapOpen (some fields.length) ++ ts, some e)
      | (ts, none, st) =>
          (variantHeader variant ++ mapOpen (some fields.length) ++ ts ++ mapEnd st ++
            [Token.endObjectValue, Token.endObject], none)
termination_by v => sizeOf v

/-- The caller's element loop over `SerializeSeq::serialize_element`
(`src/ser/compound.rs`): each element emits `begin_array_value` with the
`first` flag, sets the state to `Rest`, serializes the element, and closes
with `end_array_value` on success. -/
def serSeqElems : List Value → State → List Token × Option SerError × State
  | [], st => ([], none, st)
  | v :: vs, st =>
      match serValue v with
      | (vts, some e) => (Token.beginArrayValue (isFirst st) :: vts, some e, State.rest)
      | (vts, none) =>
          match serSeqElems vs State.rest with
          | (ts2, e2, st2) =>
              ((Token.beginArrayValue (isFirst st) ::
                  (vts ++ [Token.endArrayValue])) ++ ts2, e2, st2)
termination_by l _ => sizeOf l

/-- The caller's entry loop over `SerializeMap::serialize_entry`
(`serialize_key` then `serialize_value`, `src/ser/compound.rs`): the key
step advances the state, the value step wraps the value in
`begin_object_value`/`end_object_value` and leaves the state alone. -/
def serMapEntries : List (Value × Value) → State → List Token × Option SerError × State
  | [], st => ([], none, st)
  | (k, v) :: rest, st =>
      match serializeKeyStep st k with
      | (kts, some e, st1) => (kts, some e, st1)
      | (kts, none, st1) =>
          match serValue v with
          | (vts, some e) => (kts ++ (Token.beginObjectValue :: vts), some e, st1)
          | (vts, none) =>
              match serMapEntries rest st1 with
              | (ts2, e2, st2) =>
                  (kts ++ (Token.beginObjectValue ::
                    (vts ++ [Token.endObjectValue])) ++ ts2, e2, st2)
termination_by l _ => sizeOf l

/-- The caller's field loop over `SerializeStruct::serialize_field`
(`src/ser/compound.rs`), which delegates to
`SerializeMap::serialize_entry` with the field name serialized as a
string key. -/
def serStructFields : List (String × Value) → State → List Token × Option SerError × State
  | [], st => ([], none, st)
  | (k, v) :: rest, st =>
      match serializeKeyStep st (Value.vStr k) with
      | (kts, some e, st1) => (kts, some e, st1)
      | (kts, none, st1) =>
          match serValue v with
          | (vts, some e) => (kts ++ (Token.beginObjectValue :: vts), some e, st1)
          | (vts, none) =>
              match serStructFields rest st1 with
              | (ts2, e2, st2) =>
                  (kts ++ (Token.beginObjectValue ::
                    (vts ++ [Token.endObjectValue])) ++ ts2, e2, st2)
termination_by l _ => sizeOf l

end

/-- `SerializeSeq::serialize_element` (`src/ser/compound.rs`) as a single
step: `begin_array_value` with the `first` flag, state set to `Rest`
before the element is serialized, `end_array_value` on success. -/
def serializeElementStep (st : State) (v : Value) : List Token × Option SerError × State :=
  match serValue v with
  | (vts, some e) => (Token.beginArrayValue (isFirst st) :: vts, some e, State.rest)
  | (vts, none) =>
      (Token.beginArrayValue (isFirst st) :: (vts ++ [Token.endArrayValue]), none, State.rest)

/-- `SerializeMap::serialize_value` (`src/ser/compound.rs`) as a single
step: wrap the value between `begin_object_value` and `end_object_value`;
the separator state is not read and not written. -/
def serializeValueStep (st : State) (v : Value) : List Token × Option SerError × State :=
  match serValue v with
  | (vts, some e) => (Token.beginObjectValue :: vts, some e, st)
  | (vts, none) =>
      (Token.beginObjectValue :: (vts ++ [Token.endObjectValue]), none, st)

/-- Modelled from the spec: the Compact formatter's default
`begin_array_value`/`begin_object_key` byte rendering (the `Formatter`
trait's default method bodies are in the `format` module whose `mod.rs` is
not among the available sources).  Per the spec, the element separator is
a single comma with no whitespace, emitted before every element except the
first, i.e. exactly when the `first` flag is false. -/
def compactElementSeparator (first : Bool) : String :=
  if first then "" else ","

/-- The element loop factors through the single-step embedding of
`SerializeSeq::serialize_element`. -/
theorem serSeqElems_cons (v : Value) (vs : List Value) (st : State) :
    serSeqElems (v :: vs) st =
      match serializeElementStep st v with
      | (ts, some e, st1) => (ts, some e, st1)
      | (ts, none, st1) =>
          match serSeqElems vs st1 with
          | (ts2, e2, st2) => (ts ++ ts2, e2, st2) := by
  rw [serSeqElems, serializeElementStep]
  rcases hv : serValue v with ⟨vts, e⟩
  cases e <;> simp

/-- The entry loop factors through the single-step embeddings of
`SerializeMap::serialize_key` and `SerializeMap::serialize_value`. -/
theorem serMapEntries_cons (k v : Value) (rest : List (Value × Value)) (st : State) :
    serMapEntries ((k, v) :: rest) st =
      match serializeKeyStep st k with
      | (kts, some e, st1) => (kts, some e, st1)
      | (kts, none, st1) =>
          match serializeValueStep st1 v with
          | (vts, some e, st2) => (kts ++ vts, some e, st2)
          | (vts, none, st2) =>
              match serMapEntries rest st2 with
              | (ts2, e2, st3) => (kts ++ vts ++ ts2, e2, st3) := by
  rcases hk : serializeKeyStep st k with ⟨kts, ke, st1⟩
  cases ke <;> rcases hv : serValue v with ⟨vts, ve⟩ <;> cases ve <;>
    simp [serMapEntries, serializeValueStep, hk, hv]

/-- The struct-field loop is the entry loop on the field names serialized
as string keys (`SerializeStruct::serialize_field` delegates to
`SerializeMap::serialize_entry`). -/
theorem serStructFields_eq_serMapEntries (fields : List (String × Value)) (st : State) :
    serStructFields fields st
      = serMapEntries (fields.map (fun kv => (Value.vStr kv.1, kv.2))) st := by
  induction fields generalizing st with
  | nil => simp [serStructFields, serMapEntries]
  | cons kv rest ih =>
      rcases kv with ⟨k, v⟩
      rcases hk : serializeKeyStep st (Value.vStr k) with ⟨kts, ke, st1⟩
      cases ke <;> rcases hv : serValue v with ⟨vts, ve⟩ <;> cases ve <;>
        simp [serStructFields, serMapEntries, hk, hv, ih]

/-- The byte loop of `serialize_bytes` is the element loop on the bytes
viewed as `u8` scalars. -/
theorem serBytesElems_eq_serSeqElems (bs : List Nat) (st : State) :
    serBytesElems bs st = serSeqElems (bs.map Value.vU8) st := by
  induction bs generalizing st with
  | nil => simp [serBytesElems, serSeqElems]
  | cons b rest ih => simp [serBytesElems, serSeqElems, serValue, ih]

/-- C2: a sequence or mapping opened with a known element count of zero
emits the opening delimiter, emits the closing delimiter immediately at
creation, hands back a `Compound` in `Empty` state, and its `end()` emits
no further closing delimiter. -/
theorem known_zero_immediate_close :
    initialState (some 0) = State.empty
  ∧ serValue (Value.vSeq (some 0) []) = ([Token.beginArray, Token.endArray], none)
  ∧ serValue (Value.vMap (some 0) []) = ([Token.beginObject, Token.endObject], none)
  ∧ seqEnd State.empty = []
  ∧ mapEnd State.empty = [] := by
  refine ⟨rfl, ?_, ?_, rfl, rfl⟩ <;>
    simp [serValue, serSeqElems, serMapEntries, initialState, seqOpen, seqEnd, mapOpen, mapEnd]

/-- C3: a sequence or mapping opened with unknown length that receives
zero elements is created in `First` state, not `Empty`, and its `end()`
still emits the closing delimiter, so the output is a complete delimiter
pair. -/
theorem unknown_length_zero_elements_close :
    initialState none = State.first
  ∧ serValue (Value.vSeq none []) = ([Token.beginArray, Token.endArray], none)
  ∧ serValue (Value.vMap none []) = ([Token.beginObject, Token.endObject], none)
  ∧ seqEnd State.first = [Token.endArray]
  ∧ mapEnd State.first = [Token.endObject] := by
  refine ⟨rfl, ?_, ?_, rfl, rfl⟩ <;>
    simp [serValue, serSeqElems, serMapEntries, initialState, seqOpen, seqEnd, mapOpen, mapEnd]

/-- C7: a struct-like value with named fields serializes exactly like a
mapping of the same length whose keys are the field names serialized as
strings. -/
theorem struct_serializes_as_map (name : String) (fields : List (String × Value)) :
    serValue (Value.vStruct name fields)
      = serValue (Value.vMap (some fields.length)
          (fields.map (fun kv => (Value.vStr kv.1, kv.2)))) := by
  simp [serValue, serStructFields_eq_serMapEntries]

/-- C8: an absent optional value, a unit value and a named unit struct all
render as the null literal and nothing else; `serialize_none` produces
exactly the output of `serialize_unit`. -/
theorem none_and_unit_render_null (name : String) :
    serValue Value.vNone = serValue Value.vUnit
  ∧ serValue Value.vUnit = ([Token.writeNull], none)
  ∧ serValue (Value.vUnitStruct name) = ([Token.writeNull], none)
  ∧ serValue Value.vNone = ([Token.writeNull], none) := by
  refine ⟨?_, ?_, ?_, ?_⟩ <;> simp [serValue]

/-- C10: serializing a raw byte sequence produces exactly the output of
serializing a sequence with known length equal to the byte count whose
elements are the bytes as `u8` integers. -/
theorem bytes_serialize_as_u8_seq (bs : List Nat) :
    serValue (Value.vBytes bs)
      = serValue (Value.vSeq (some bs.length) (bs.map Value.vU8)) := by
  simp [serValue, serBytesElems_eq_serSeqElems]

/-- C1: during serialization of a sequence or mapping element/key, the
formatter's begin token receives the `first` flag exactly when the
`Compound` state is `First` (so, spec-modelled byte rendering, the
element separator is emitted exactly when the state is `Rest`), and the
state after `serialize_element`/`serialize_key` is `Rest`. -/
theorem separator_state_invariant (st : State) (v k : Value) (h : st ≠ State.empty) :
    (serializeElementStep st v).1.head? = some (Token.beginArrayValue (isFirst st))
  ∧ (serializeElementStep st v).2.2 = State.rest
  ∧ (serializeKeyStep st k).1.head? = some (Token.beginObjectKey (isFirst st))
  ∧ (serializeKeyStep st k).2.2 = State.rest
  ∧ (isFirst st = true ↔ st = State.first)
  ∧ (compactElementSeparator (isFirst st) ≠ "" ↔ st = State.rest) := by
  refine ⟨?_, ?_, ?_, ?_, ?_, ?_⟩
  · rcases hv : serValue v with ⟨vts, e⟩
    cases e <;> simp [serializeElementStep, hv]
  · rcases hv : serValue v with ⟨vts, e⟩
    cases e <;> simp [serializeElementStep, hv]
  · rcases hk : serKey k with ⟨kts, e⟩
    cases e <;> simp [serializeKeyStep, hk]
  · rcases hk : serKey k with ⟨kts, e⟩
    cases e <;> simp [serializeKeyStep, hk]
  · cases st <;> simp [isFirst]
  · cases st with
    | empty => exact absurd rfl h
    | first => simp [isFirst, compactElementSeparator]
    | rest => simp [isFirst, compactElementSeparator]

/-- Witness for C1 at the `Rest` state. -/
theorem separator_state_invariant_witness :
    (serializeElementStep State.rest Value.vUnit).1.head?
        = some (Token.beginArrayValue (isFirst State.rest))
  ∧ (serializeElementStep State.rest Value.vUnit).2.2 = State.rest
  ∧ (serializeKeyStep State.rest (Value.vStr "k")).1.head?
        = some (Token.beginObjectKey (isFirst State.rest))
  ∧ (serializeKeyStep State.rest (Value.vStr "k")).2.2 = State.rest
  ∧ (isFirst State.rest = true ↔ State.rest = State.first)
  ∧ (compactElementSeparator (isFirst State.rest) ≠ "" ↔ State.rest = State.rest) :=
  separator_state_invariant State.rest Value.vUnit (Value.vStr "k") (by decide)

/-- C4: the `MapKeySerializer` accepts exactly the integer widths, a
single character, a string, an enum unit-variant name (written as its
string form) and a newtype-wrapped value (unwrapped transparently), and
rejects every other kind with `KeyMustBeStringOrNumber`, writing
nothing. -/
theorem map_key_kind_restriction :
    (∀ n : Int, serKey (Value.vI8 n) = ([Token.writeI8 n], none))
  ∧ (∀ n : Int, serKey (Value.vI16 n) = ([Token.writeI16 n], none))
  ∧ (∀ n : Int, serKey (Value.vI32 n) = ([Token.writeI32 n], none))
  ∧ (∀ n : Int, serKey (Value.vI64 n) = ([Token.writeI64 n], none))
  ∧ (∀ n : Nat, serKey (Value.vU8 n) = ([Token.writeU8 n], none))
  ∧ (∀ n : Nat, serKey (Value.vU16 n) = ([Token.writeU16 n], none))
  ∧ (∀ n : Nat, serKey (Value.vU32 n) = ([Token.writeU32 n], none))
  ∧ (∀ n : Nat, serKey (Value.vU64 n) = ([Token.writeU64 n], none))
  ∧ (∀ c : Char, serKey (Value.vChar c) = (strTokens (String.singleton c), none))
  ∧ (∀ s : String, serKey (Value.vStr s) = (strTokens s, none))
  ∧ (∀ nm vr : String, serKey (Value.vUnitVariant nm vr) = (strTokens vr, none))
  ∧ (∀ nm : String, ∀ v : Value, serKey (Value.vNewtypeStruct nm v) = serKey v)
  ∧ (∀ b : Bool, serKey (Value.vBool b) = ([], some SerError.keyMustBeStringOrNumber))
  ∧ (∀ x : Nat, serKey (Value.vF32 x) = ([], some SerError.keyMustBeStringOrNumber))
  ∧ (∀ x : Nat, serKey (Value.vF64 x) = ([], some SerError.keyMustBeStringOrNumber))
  ∧ (∀ bs : List Nat, serKey (Value.vBytes bs) = ([], some SerError.keyMustBeStringOrNumber))
  ∧ serKey Value.vNone = ([], some SerError.keyMustBeStringOrNumber)
  ∧ (∀ v : Value, serKey (Value.vSome v) = ([], some SerError.keyMustBeStringOrNumber))
  ∧ serKey Value.vUnit = ([], some SerError.keyMustBeStringOrNumber)
  ∧ (∀ nm : String, serKey (Value.vUnitStruct nm) = ([], some SerError.keyMustBeStringOrNumber))
  ∧ (∀ nm vr : String, ∀ v : Value,
      serKey (Value.vNewtypeVariant nm vr v) = ([], some SerError.keyMustBeStringOrNumber))
  ∧ (∀ len : Option Nat, ∀ elems : List Value,
      serKey (Value.vSeq len elems) = ([], some SerError.keyMustBeStringOrNumber))
  ∧ (∀ elems : List Value,
      serKey (Value.vTuple elems) = ([], some SerError.keyMustBeStringOrNumber))
  ∧ (∀ nm : String, ∀ elems : List Value,
      serKey (Value.vTupleStruct nm elems) = ([], some SerError.keyMustBeStringOrNumber))
  ∧ (∀ nm vr : String, ∀ elems : List Value,
      serKey (Value.vTupleVariant nm vr elems) = ([], some SerError.keyMustBeStringOrNumber))
  ∧ (∀ len : Option Nat, ∀ entries : List (Value × Value),
      serKey (Value.vMap len entries) = ([], some SerError.keyMustBeStringOrNumber))
  ∧ (∀ nm : String, ∀ fields : List (String × Value),
      serKey (Value.vStruct nm fields) = ([], some SerError.keyMustBeStringOrNumber))
  ∧ (∀ nm vr : String, ∀ fields : List (String × Value),
      serKey (Value.vStructVariant nm vr fields)
        = ([], some SerError.keyMustBeStringOrNumber)) := by
  exact ⟨fun _ => rfl, fun _ => rfl, fun _ => rfl, fun _ => rfl, fun _ => rfl, fun _ => rfl,
    fun _ => rfl, fun _ => rfl, fun _ => rfl, fun _ => rfl, fun _ _ => rfl, fun _ _ => rfl,
    fun _ => rfl, fun _ => rfl, fun _ => rfl, fun _ => rfl, rfl, fun _ => rfl, rfl,
    fun _ => rfl, fun _ _ _ => rfl, fun _ _ => rfl, fun _ => rfl, fun _ _ => rfl,
    fun _ _ _ => rfl, fun _ _ => rfl, fun _ _ => rfl, fun _ _ _ => rfl⟩

/-- C5: serializing a mapping entry whose key is a boolean fails with the
invalid-key error; the only token emitted for the entry is the
`begin_object_key` separator token, so no key byte and no value byte of
that entry is written. -/
theorem bool_key_fails_before_value (st : State) (b : Bool) (v : Value) :
    serMapEntries [(Value.vBool b, v)] st
      = ([Token.beginObjectKey (isFirst st)],
          some SerError.keyMustBeStringOrNumber, State.rest) := by
  simp [serMapEntries, serializeKeyStep, serKey]

/-- C9: `SerializeMap::serialize_value` never changes the separator
state, and on success the value emission is wrapped in its own
`begin_object_value`/`end_object_value` token pair. -/
theorem map_value_frame (st : State) (v : Value) :
    (serializeValueStep st v).2.2 = st
  ∧ ((serValue v).2 = none →
      (serializeValueStep st v).1
        = Token.beginObjectValue :: ((serValue v).1 ++ [Token.endObjectValue])) := by
  constructor
  · rcases hv : serValue v with ⟨vts, e⟩
    cases e <;> simp [serializeValueStep, hv]
  · intro h
    rcases hv : serValue v with ⟨vts, e⟩
    rw [hv] at h
    simp only at h
    subst h
    simp [serializeValueStep, hv]

/-- Witness for C9 at a concrete value. -/
theorem map_value_frame_witness :
    (serializeValueStep State.rest (Value.vBool true)).2.2 = State.rest
  ∧ (serializeValueStep State.rest (Value.vBool true)).1
      = Token.beginObjectValue ::
          ((serValue (Value.vBool true)).1 ++ [Token.endObjectValue]) :=
  ⟨(map_value_frame State.rest (Value.vBool true)).1,
    (map_value_frame State.rest (Value.vBool true)).2 (by simp [serValue])⟩

/-- C6: a tagged variant carrying one payload (newtype, tuple or struct
variant) renders as a single-key keyed structure: the enclosing object is
opened, the variant name is written as the sole key, the payload is
opened as its value, and on completion the payload's own delimiter (when
its compound did not already close as `Empty`) and the enclosing one-key
object are both closed. -/
theorem tagged_variant_single_key (name variant : String) (v : Value)
    (elems : List Value) (fields : List (String × Value))
    (h1 : (serValue v).2 = none)
    (h2 : (serSeqElems elems (initialState (some elems.length))).2.1 = none)
    (h3 : (serStructFields fields (initialState (some fields.length))).2.1 = none) :
    serValue (Value.vNewtypeVariant name variant v)
      = (variantHeader variant ++ (serValue v).1 ++
          [Token.endObjectValue, Token.endObject], none)
  ∧ serValue (Value.vTupleVariant name variant elems)
      = (variantHeader variant ++ seqOpen (some elems.length) ++
          (serSeqElems elems (initialState (some elems.length))).1 ++
          seqEnd (serSeqElems elems (initialState (some elems.length))).2.2 ++
          [Token.endObjectValue, Token.endObject], none)
  ∧ serValue (Value.vStructVariant name variant fields)
      = (variantHeader variant ++ mapOpen (some fields.length) ++
          (serStructFields fields (initialState (some fields.length))).1 ++
          mapEnd (serStructFields fields (initialState (some fields.length))).2.2 ++
          [Token.endObjectValue, Token.endObject], none) := by
  refine ⟨?_, ?_, ?_⟩
  · rcases hv : serValue v with ⟨vts, e⟩
    rw [hv] at h1
    simp only at h1
    subst h1
    simp [serValue, hv]
  · rcases hs : serSeqElems elems (initialState (some elems.length)) with ⟨ts, e, st⟩
    rw [hs] at h2
    simp only at h2
    subst h2
    simp [serValue, hs]
  · rcases hs : serStructFields fields (initialState (some fields.length)) with ⟨ts, e, st⟩
    rw [hs] at h3
    simp only at h3
    subst h3
    simp [serValue, hs]

/-- Witness for C6 at concrete payloads. -/
theorem tagged_variant_single_key_witness :
    serValue (Value.vNewtypeVariant "E" "A" Value.vUnit)
      = (variantHeader "A" ++ (serValue Value.vUnit).1 ++
          [Token.endObjectValue, Token.endObject], none)
  ∧ serValue (Value.vTupleVariant "E" "A" [Value.vBool true])
      = (variantHeader "A" ++ seqOpen (some [Value.vBool true].length) ++
          (serSeqElems [Value.vBool true]
            (initialState (some [Value.vBool true].length))).1 ++
          seqEnd (serSeqElems [Value.vBool true]
            (initialState (some [Value.vBool true].length))).2.2 ++
          [Token.endObjectValue, Token.endObject], none)
  ∧ serValue (Value.vStructVariant "E" "A" [("f", Value.vUnit)])
      = (variantHeader "A" ++ mapOpen (some [("f", Value.vUnit)].length) ++
          (serStructFields [("f", Value.vUnit)]
            (initialState (some [("f", Value.vUnit)].length))).1 ++
          mapEnd (serStructFields [("f", Value.vUnit)]
            (initialState (some [("f", Value.vUnit)].length))).2.2 ++
          [Token.endObjectValue, Token.endObject], none) :=
  tagged_variant_single_key "E" "A" Value.vUnit [Value.vBool true] [("f", Value.vUnit)]
    (by simp [serValue])
    (by simp [serSeqElems, serValue, initialState])
    (by simp [serStructFields, serializeKeyStep, serKey, serValue, initialState])
